import Mathlib

/-!
Verification of the idempotent transactional data-access layer of
src/index.py (academic-facility registration store).

The Python module keeps five SQLAlchemy-mapped tables (usuario, aluno,
professor, sala, registro) and a set of CRUD / get-or-create operations,
each running inside one `get_session` transaction that commits on success,
rolls back and re-raises on any exception, and always closes the session.

Shallow embedding choices:
* A database state `DB` is the five tables as lists of rows (in insertion
  order) together with the three surrogate-key counters the database's
  autoincrement primary keys provide (ids are assigned at `flush`).
* Python `date` values carry no time component and are only compared for
  equality here, so they are modelled as `Nat` (an ordinal day number).
* Constraints declared in the source schema (CheckConstraint
  "capacidade >= 0", CheckConstraint on usuario.tipo, UNIQUE email /
  matricula / (id_usuario, id_sala, data_registro), the foreign keys of
  registro, and ON DELETE CASCADE) are enforced by PostgreSQL when the
  transaction flushes or commits; an operation whose writes would violate
  one is modelled as returning `Except.error` (the transaction rolls back,
  so no state is returned with the error).
* bcrypt is an external library (`import bcrypt`), not code of this
  repository.  `hash_senha_bcrypt` really salts randomly; no claim here
  depends on hash values, so it is modelled as a deterministic stand-in
  that produces the library's fixed "$2b$12$..." format.  `bcrypt.checkpw`
  raises `ValueError("Invalid salt")` when its second argument does not
  parse as a bcrypt hash; that documented library behaviour is modelled
  explicitly in `bcrypt_checkpw`.
-/

namespace RegistroDeSala

/-- A row of the `usuario` table: surrogate id, display name, unique email,
bcrypt password hash, and role tag (source: class Usuario, src/index.py). -/
structure Usuario where
  id_usuario : Nat
  nome : String
  email : String
  senha : String
  tipo : String
deriving DecidableEq, Repr

/-- A row of the `aluno` table: primary key = foreign key to usuario
(ON DELETE CASCADE) plus the unique registration number (class Aluno). -/
structure Aluno where
  id_aluno : Nat
  matricula : String
deriving DecidableEq, Repr

/-- A row of the `professor` table: just the owning usuario id
(class Professor; the schema variant without 'disciplina'). -/
structure Professor where
  id_professor : Nat
deriving DecidableEq, Repr

/-- A row of the `sala` table: surrogate id, unique name, capacity
(class Sala; CheckConstraint "capacidade >= 0"). -/
structure Sala where
  id_sala : Nat
  nome_sala : String
  capacidade : Int
deriving DecidableEq, Repr

/-- A row of the `registro` table: surrogate id, the two foreign keys and
the calendar day; UNIQUE (id_usuario, id_sala, data_registro)
(class Registro).  Days are modelled as ordinal numbers. -/
structure Registro where
  id_registro : Nat
  id_usuario : Nat
  id_sala : Nat
  data_registro : Nat
deriving DecidableEq, Repr

/-- The whole database state: the five tables in row-insertion order plus
the next value of each autoincrement primary key. -/
structure DB where
  usuarios : List Usuario
  alunos : List Aluno
  professores : List Professor
  salas : List Sala
  registros : List Registro
  next_usuario_id : Nat
  next_sala_id : Nat
  next_registro_id : Nat
deriving DecidableEq, Repr

/-- Errors surfaced by the store: uniqueness / check / foreign-key
violations raised at flush or commit time, and Python `ValueError`. -/
inductive DBError where
  | uniqueViolation (c : String)
  | checkViolation (c : String)
  | fkViolation (c : String)
  | notNullViolation (c : String)
  | valueError (msg : String)
deriving DecidableEq, Repr

/-! ## Credential module (bcrypt, external to the repository) -/

/-- Modelled from the spec: `hash_senha_bcrypt` (src/index.py line 46)
calls the external bcrypt library with a random salt and cost 12,
producing a string of the fixed format "$2b$12$...".  The library itself
is not part of this repository and no claim depends on the hash values,
so the salted hash is modelled as a deterministic stand-in of that fixed
format. -/
def hash_senha_bcrypt (senha_plana : String) : String :=
  "$2b$12$" ++ senha_plana

/-- Boolean test for one character list being a prefix of another
(used to model bcrypt's parse of the "$2b$12$" hash header). -/
def ehPrefixo : List Char → List Char → Bool
  | [], _ => true
  | _ :: _, [] => false
  | c :: cs, d :: ds => c == d && ehPrefixo cs ds

/-- A hash string of the fixed format produced by `hash_senha_bcrypt`. -/
def bcrypt_hash_bem_formado (senha_hash : String) : Bool :=
  ehPrefixo "$2b$12$".data senha_hash.data

/-- Modelled from the spec: `bcrypt.checkpw` is code of the external bcrypt
library, missing from this repository.  Its documented behaviour: it
parses its second argument as a bcrypt hash and raises
`ValueError("Invalid salt")` when that fails; otherwise it recomputes the
hash and compares.  With the deterministic stand-in hash, recompute-and-
compare is equality with `hash_senha_bcrypt` of the plaintext. -/
def bcrypt_checkpw (senha_plana senha_hash : String) : Except DBError Bool :=
  if bcrypt_hash_bem_formado senha_hash then
    .ok (senha_hash == hash_senha_bcrypt senha_plana)
  else
    .error (DBError.valueError "Invalid salt")

/-- `verificar_senha` (src/index.py line 50) delegates directly to
`bcrypt.checkpw`; any exception from the library propagates. -/
def verificar_senha (senha_plana senha_hash : String) : Except DBError Bool :=
  bcrypt_checkpw senha_plana senha_hash

/-! ## Row lookups (the `s.scalar(select(...))` / `s.get` calls) -/

/-- `s.scalar(select(Usuario).where(Usuario.email == email))`. -/
def usuarioByEmail (db : DB) (email : String) : Option Usuario :=
  db.usuarios.find? (fun u => u.email == email)

/-- `s.get(Usuario, id_usuario)`. -/
def usuarioById (db : DB) (i : Nat) : Option Usuario :=
  db.usuarios.find? (fun u => u.id_usuario == i)

/-- `s.scalar(select(Sala).where(Sala.nome_sala == nome))`. -/
def salaByNome (db : DB) (nome : String) : Option Sala :=
  db.salas.find? (fun s => s.nome_sala == nome)

/-- Lookup of a sala row by primary key (used by the registro foreign key). -/
def salaById (db : DB) (i : Nat) : Option Sala :=
  db.salas.find? (fun s => s.id_sala == i)

/-- The `u.aluno` relationship: the aluno row whose primary key is the
owning usuario's id. -/
def alunoById (db : DB) (i : Nat) : Option Aluno :=
  db.alunos.find? (fun a => a.id_aluno == i)

/-- The `u.professor` relationship. -/
def professorById (db : DB) (i : Nat) : Option Professor :=
  db.professores.find? (fun p => p.id_professor == i)

/-- `select(Registro).where(id_usuario = .. and id_sala = .. and data_registro = ..)`. -/
def registroByTriple (db : DB) (idU idS dia : Nat) : Option Registro :=
  db.registros.find?
    (fun r => r.id_usuario == idU && r.id_sala == idS && r.data_registro == dia)

/-- Replacing the row of usuario `u2` (matched by primary key) with `u2`:
the effect of the attribute assignments on a loaded ORM object at commit. -/
def updateUsuario (db : DB) (u2 : Usuario) : DB :=
  ⟨db.usuarios.map (fun v => if v.id_usuario == u2.id_usuario then u2 else v),
   db.alunos, db.professores, db.salas, db.registros,
   db.next_usuario_id, db.next_sala_id, db.next_registro_id⟩

/-- UNIQUE constraint on usuario.email, checked against the other rows. -/
def emailTakenByOther (db : DB) (email : String) (i : Nat) : Bool :=
  db.usuarios.any (fun v => v.email == email && v.id_usuario != i)

/-- CheckConstraint "tipo IN ('aluno','professor','admin')". -/
def tipoValido (tipo : String) : Bool :=
  tipo == "aluno" || tipo == "professor" || tipo == "admin"

/-- UNIQUE constraint on aluno.matricula. -/
def matriculaTaken (db : DB) (m : String) : Bool :=
  db.alunos.any (fun a => a.matricula == m)

/-- Insert a usuario row and advance the autoincrement counter
(`s.add(u); s.flush()`). -/
def insertUsuario (db : DB) (u : Usuario) : DB :=
  ⟨db.usuarios ++ [u], db.alunos, db.professores, db.salas, db.registros,
   db.next_usuario_id + 1, db.next_sala_id, db.next_registro_id⟩

/-- Insert an aluno row for usuario `i` (`u.aluno = Aluno(matricula=...)`). -/
def insertAlunoRow (db : DB) (i : Nat) (m : String) : DB :=
  ⟨db.usuarios, db.alunos ++ [⟨i, m⟩], db.professores, db.salas, db.registros,
   db.next_usuario_id, db.next_sala_id, db.next_registro_id⟩

/-- Insert a professor row for usuario `i` (`u.professor = Professor()`). -/
def insertProfessorRow (db : DB) (i : Nat) : DB :=
  ⟨db.usuarios, db.alunos, db.professores ++ [⟨i⟩], db.salas, db.registros,
   db.next_usuario_id, db.next_sala_id, db.next_registro_id⟩

/-- Insert a sala row and advance its autoincrement counter. -/
def insertSala (db : DB) (sala : Sala) : DB :=
  ⟨db.usuarios, db.alunos, db.professores, db.salas ++ [sala], db.registros,
   db.next_usuario_id, db.next_sala_id + 1, db.next_registro_id⟩

/-- Insert a registro row and advance its autoincrement counter. -/
def insertRegistro (db : DB) (r : Registro) : DB :=
  ⟨db.usuarios, db.alunos, db.professores, db.salas, db.registros ++ [r],
   db.next_usuario_id, db.next_sala_id, db.next_registro_id + 1⟩

/-! ## Transaction boundary -/

/-- The observable outcome of one `get_session` block: the value or
exception the caller sees, the committed database state afterwards, and
which of commit / rollback / close ran. -/
structure SessionRun (α : Type) where
  result : Except DBError α
  finalDb : DB
  committed : Bool
  rolledBack : Bool
  closed : Bool
deriving Repr

/-- `get_session` (src/index.py lines 31-41): runs the body in a fresh
session over the committed state `db`; commits the body's writes when the
body returns normally, rolls them back (leaving `db`) and re-raises when
the body raises, and closes the session in the `finally` on both paths. -/
def get_session {α : Type} (db : DB) (body : DB → Except DBError (α × DB)) :
    SessionRun α :=
  match body db with
  | .ok (a, db2) => ⟨.ok a, db2, true, false, true⟩
  | .error e => ⟨.error e, db, false, true, true⟩

/-! ## CRUD / service operations (each one whole `get_session` call) -/

/-- `get_or_create_usuario_aluno` (src/index.py lines 111-122): look up by
email; if found, coerce the role to "aluno" when needed and attach a
missing Aluno profile with the given matricula; otherwise create the
Usuario plus profile.  An insert whose matricula collides with another
aluno row violates UNIQUE at commit and the transaction rolls back. -/
def get_or_create_usuario_aluno (db : DB) (nome email senha_plana matricula : String) :
    Except DBError ((Usuario × Bool) × DB) :=
  match usuarioByEmail db email with
  | some u =>
    let u2 : Usuario :=
      if u.tipo != "aluno" then ⟨u.id_usuario, u.nome, u.email, u.senha, "aluno"⟩ else u
    let db2 := updateUsuario db u2
    match alunoById db u.id_usuario with
    | some _ => .ok ((u2, false), db2)
    | none =>
      if matriculaTaken db matricula then
        .error (DBError.uniqueViolation "aluno.matricula")
      else
        .ok ((u2, false), insertAlunoRow db2 u.id_usuario matricula)
  | none =>
    if matriculaTaken db matricula then
      .error (DBError.uniqueViolation "aluno.matricula")
    else
      let u : Usuario :=
        ⟨db.next_usuario_id, nome, email, hash_senha_bcrypt senha_plana, "aluno"⟩
      .ok ((u, true), insertAlunoRow (insertUsuario db u) u.id_usuario matricula)

/-- `get_or_create_usuario_professor` (src/index.py lines 124-136):
symmetric to the aluno path, with no extra profile field and hence no
extra uniqueness constraint, so it never fails. -/
def get_or_create_usuario_professor (db : DB) (nome email senha_plana : String) :
    (Usuario × Bool) × DB :=
  match usuarioByEmail db email with
  | some u =>
    let u2 : Usuario :=
      if u.tipo != "professor" then ⟨u.id_usuario, u.nome, u.email, u.senha, "professor"⟩ else u
    let db2 := updateUsuario db u2
    match professorById db u.id_usuario with
    | some _ => ((u2, false), db2)
    | none =>
      ((u2, false), insertProfessorRow db2 u.id_usuario)
  | none =>
    let u : Usuario :=
      ⟨db.next_usuario_id, nome, email, hash_senha_bcrypt senha_plana, "professor"⟩
    ((u, true), insertProfessorRow (insertUsuario db u) u.id_usuario)

/-- `criar_usuario_admin` (src/index.py lines 138-145): look up by email;
an existing Usuario is returned as-is with created=false and nothing is
written; otherwise a new Usuario with tipo="admin" is created. -/
def criar_usuario_admin (db : DB) (nome email senha_plana : String) :
    (Usuario × Bool) × DB :=
  match usuarioByEmail db email with
  | some u => ((u, false), db)
  | none =>
    let u : Usuario :=
      ⟨db.next_usuario_id, nome, email, hash_senha_bcrypt senha_plana, "admin"⟩
    ((u, true), insertUsuario db u)

/-- `atualizar_usuario_basico` (src/index.py lines 147-156): load by id,
return false when absent; otherwise overwrite nome, email and tipo, and
replace the hash only when `nova_senha` is truthy in Python (neither None
nor the empty string).  The commit enforces the unique email and the tipo
check constraint. -/
def atualizar_usuario_basico (db : DB) (i : Nat) (nome email tipo : String)
    (nova_senha : Option String) : Except DBError (Bool × DB) :=
  match usuarioById db i with
  | none => .ok (false, db)
  | some u =>
    if emailTakenByOther db email i then
      .error (DBError.uniqueViolation "usuario.email")
    else if tipoValido tipo then
      let senha2 : String :=
        match nova_senha with
        | some p => if p != "" then hash_senha_bcrypt p else u.senha
        | none => u.senha
      .ok (true, updateUsuario db ⟨u.id_usuario, nome, email, senha2, tipo⟩)
    else
      .error (DBError.checkViolation "ck_usuario_tipo")

/-- `deletar_usuario` (src/index.py lines 158-163): false when absent;
otherwise `s.delete(u)`.  The `aluno` / `professor` relationships carry
`cascade="all, delete-orphan"`, so the ORM deletes those profile rows
together with the parent.  `Usuario.registros` (line 69), however, is a
plain `relationship(back_populates="usuario")` with no delete cascade and
no `passive_deletes`: at flush the ORM nulls out `registro.id_usuario`
for the person's registro rows before deleting the parent, and that
column is NOT NULL (line 94), so the flush raises an integrity error and
the transaction rolls back whenever the person has any usage records.
(The `ondelete="CASCADE"` on the foreign key is DDL only and is
pre-empted by the ORM's null-out.) -/
def deletar_usuario (db : DB) (i : Nat) : Except DBError (Bool × DB) :=
  match usuarioById db i with
  | none => .ok (false, db)
  | some _ =>
    if db.registros.any (fun r => r.id_usuario == i) then
      .error (DBError.notNullViolation "registro.id_usuario")
    else
      .ok (true,
       ⟨db.usuarios.filter (fun u => u.id_usuario != i),
        db.alunos.filter (fun a => a.id_aluno != i),
        db.professores.filter (fun p => p.id_professor != i),
        db.salas,
        db.registros,
        db.next_usuario_id, db.next_sala_id, db.next_registro_id⟩)

/-- `get_or_create_sala` (src/index.py lines 165-171): look up by name;
an existing Sala is returned unchanged with created=false; otherwise a new
row is inserted, and the flush enforces CheckConstraint
"capacidade >= 0". -/
def get_or_create_sala (db : DB) (nome : String) (capacidade : Int) :
    Except DBError ((Sala × Bool) × DB) :=
  match salaByNome db nome with
  | some sala => .ok ((sala, false), db)
  | none =>
    if capacidade < 0 then
      .error (DBError.checkViolation "ck_sala_capacidade")
    else
      let sala : Sala := ⟨db.next_sala_id, nome, capacidade⟩
      .ok ((sala, true), insertSala db sala)

/-- `registrar_idempotente` (src/index.py lines 173-183): look up the
(id_usuario, id_sala, dia) triple; return the match with created=false,
or insert a new row.  The function itself does not validate the foreign
keys; a dangling id makes the INSERT fail with a referential-integrity
error at flush and the transaction rolls back. -/
def registrar_idempotente (db : DB) (idU idS dia : Nat) :
    Except DBError ((Registro × Bool) × DB) :=
  match registroByTriple db idU idS dia with
  | some r => .ok ((r, false), db)
  | none =>
    match usuarioById db idU with
    | none => .error (DBError.fkViolation "registro.id_usuario")
    | some _ =>
      match salaById db idS with
      | none => .error (DBError.fkViolation "registro.id_sala")
      | some _ =>
        let r : Registro := ⟨db.next_registro_id, idU, idS, dia⟩
        .ok ((r, true), insertRegistro db r)

/-! ## Query layer: listar_usuarios -/

/-- The rows selected by `listar_usuarios` (src/index.py lines 199-203):
all usuario rows, or only those with the given tipo. -/
def selUsuarios (db : DB) (tipo : Option String) : List Usuario :=
  match tipo with
  | some t => db.usuarios.filter (fun u => u.tipo == t)
  | none => db.usuarios

/-- The ordering the query requests: `order_by(Usuario.nome)` only. -/
def ordemNome (u v : Usuario) : Prop := u.nome ≤ v.nome

instance : DecidableRel ordemNome :=
  fun u v => inferInstanceAs (Decidable (u.nome ≤ v.nome))

instance : IsTotal Usuario ordemNome :=
  ⟨fun a b => le_total a.nome b.nome⟩

instance : IsTrans Usuario ordemNome :=
  ⟨fun _ _ _ h1 h2 => le_trans h1 h2⟩

/-- The ordering the specification ascribes to `listar_usuarios`: display
name ascending with ties broken by identifier ascending. -/
def ordemNomeId (u v : Usuario) : Prop :=
  u.nome < v.nome ∨ (u.nome = v.nome ∧ u.id_usuario ≤ v.id_usuario)

/-- The possible results of `listar_usuarios`: SQL `ORDER BY nome` returns
the selected rows in some order that is non-decreasing on nome; the
relative order of rows with equal nome is not constrained by the query. -/
def listar_usuarios_pode (db : DB) (tipo : Option String) (out : List Usuario) : Prop :=
  out.Perm (selUsuarios db tipo) ∧ List.Sorted ordemNome out

/-! ## Concrete states used by witnesses and counterexamples -/

/-- The empty database. -/
def dbE : DB := ⟨[], [], [], [], [], 1, 1, 1⟩

/-- A usuario row tagged as aluno. -/
def uAna : Usuario := ⟨1, "Ana", "ana@x.com", "$2b$12$pw-ana", "aluno"⟩

/-- One usuario, no profiles, no salas. -/
def dbU1 : DB := ⟨[uAna], [], [], [], [], 2, 1, 1⟩

/-- One usuario with an attached aluno profile. -/
def dbUA : DB := ⟨[uAna], [⟨1, "M1"⟩], [], [], [], 2, 1, 1⟩

/-- A sala row. -/
def salaLab : Sala := ⟨1, "Lab1", 10⟩

/-- One usuario and one sala, no registros. -/
def dbW : DB := ⟨[uAna], [], [], [salaLab], [], 2, 2, 1⟩

/-- The cascade scenario of the spec: person 1 with an aluno profile and
two usage records of sala 1. -/
def dbDel : DB :=
  ⟨[uAna], [⟨1, "M1"⟩], [], [salaLab], [⟨1, 1, 1, 3⟩, ⟨2, 1, 1, 4⟩], 2, 2, 3⟩

/-- Two usuarios with the same display name and distinct ids. -/
def u9a : Usuario := ⟨1, "Ana", "a1@x.com", "h1", "aluno"⟩

/-- Second usuario of the equal-name pair. -/
def u9b : Usuario := ⟨2, "Ana", "a2@x.com", "h2", "professor"⟩

/-- Database whose usuario table holds the equal-name pair. -/
def db9 : DB := ⟨[u9a, u9b], [], [], [], [], 3, 1, 1⟩

/-! ## Helper lemmas -/

/-- Searching an appended list when nothing matched in the first part. -/
theorem find?_append_none {α : Type} (p : α → Bool) {l1 : List α} (l2 : List α)
    (h : l1.find? p = none) : (l1 ++ l2).find? p = l2.find? p := by
  induction l1 with
  | nil => simp
  | cons a l ih =>
    rw [List.find?_cons] at h
    rw [List.cons_append, List.find?_cons]
    cases hp : p a
    · simp only [hp] at h ⊢
      exact ih h
    · simp only [hp] at h
      exact Option.noConfusion h

/-- `find?` commutes with a map that preserves the predicate. -/
theorem find?_map_pres {α : Type} (p : α → Bool) (f : α → α)
    (hf : ∀ a, p (f a) = p a) :
    ∀ l : List α, (l.map f).find? p = (l.find? p).map f := by
  intro l
  induction l with
  | nil => simp
  | cons a l ih =>
    rw [List.map_cons, List.find?_cons, List.find?_cons, hf a]
    cases hp : p a <;> simp [ih]

/-- Primary-key lookup after `updateUsuario` is the old lookup with the
replacement applied. -/
theorem usuarioById_updateUsuario (db : DB) (u2 : Usuario) (i : Nat) :
    usuarioById (updateUsuario db u2) i =
      (db.usuarios.find? (fun v => v.id_usuario == i)).map
        (fun v => if v.id_usuario == u2.id_usuario then u2 else v) := by
  simp only [usuarioById, updateUsuario]
  refine find?_map_pres _ _ ?_ db.usuarios
  intro a
  cases hid : a.id_usuario == u2.id_usuario
  · simp [hid]
  · have h2 : a.id_usuario = u2.id_usuario := by simpa using hid
    simp [hid, h2]

/-- After replacing the row with `u`'s primary key by `u2`, the lookup at
that key returns `u2`. -/
theorem usuarioById_updateUsuario_self (db : DB) (u u2 : Usuario)
    (hmem : u ∈ db.usuarios) (hid : u2.id_usuario = u.id_usuario) :
    usuarioById (updateUsuario db u2) u.id_usuario = some u2 := by
  have h1 := usuarioById_updateUsuario db u2 u.id_usuario
  have hs : (db.usuarios.find? (fun v => v.id_usuario == u.id_usuario)).isSome = true :=
    List.find?_isSome.2 ⟨u, hmem, by simp⟩
  obtain ⟨v, hv⟩ := Option.isSome_iff_exists.1 hs
  have hpv : v.id_usuario = u.id_usuario := by simpa using List.find?_some hv
  rw [h1, hv]
  simp [hpv, hid]

/-- Rows with a different primary key survive `updateUsuario`. -/
theorem mem_updateUsuario_of_ne (db : DB) (u2 v : Usuario)
    (hv : v ∈ db.usuarios) (hne : v.id_usuario ≠ u2.id_usuario) :
    v ∈ (updateUsuario db u2).usuarios := by
  have h2 := List.mem_map_of_mem
    (fun w => if w.id_usuario == u2.id_usuario then u2 else w) hv
  have h3 : (if v.id_usuario == u2.id_usuario then u2 else v) = v := by
    simp [hne]
  exact h3 ▸ h2

/-! ## Claim theorems -/

/-- C3: `get_session` commits the unit of work when the body completes
without raising, rolls back when the body raises (so the committed state
is unchanged), re-raises that exception unchanged, and closes the session
on every exit path. -/
theorem get_session_contract {α : Type} (db : DB)
    (body : DB → Except DBError (α × DB)) :
    (get_session db body).closed = true ∧
    match body db with
    | .ok (a, db2) =>
        (get_session db body).result = .ok a ∧
        (get_session db body).finalDb = db2 ∧
        (get_session db body).committed = true ∧
        (get_session db body).rolledBack = false
    | .error e =>
        (get_session db body).result = .error e ∧
        (get_session db body).finalDb = db ∧
        (get_session db body).committed = false ∧
        (get_session db body).rolledBack = true := by
  cases hb : body db with
  | ok x =>
    obtain ⟨a, db2⟩ := x
    simp [get_session, hb]
  | error e => simp [get_session, hb]

/-- C8: evaluating `verificar_senha` at a malformed hash string.  The code
delegates to `bcrypt.checkpw`, which raises ValueError("Invalid salt") on
a string that does not parse as a bcrypt hash, so the call raises instead
of returning false as the specification requires. -/
theorem verificar_senha_hash_malformado :
    verificar_senha "x" "nothash" = .error (DBError.valueError "Invalid salt") := by
  rfl

/-- C1 (amended with the capacity check the schema enforces): on a state
with no room of the given name, with c1 nonnegative, the first call
creates (created=true), the second call with any c2 returns the same Sala
unchanged with created=false, the state is untouched by the second call,
and the stored capacity is c1 — the second capacity argument is ignored. -/
theorem get_or_create_sala_idempotente (db : DB) (nome : String) (c1 c2 : Int)
    (h : salaByNome db nome = none) (hc : 0 ≤ c1) :
    ∃ (sala : Sala) (db1 : DB),
      get_or_create_sala db nome c1 = .ok ((sala, true), db1) ∧
      get_or_create_sala db1 nome c2 = .ok ((sala, false), db1) ∧
      sala.capacidade = c1 ∧ salaByNome db1 nome = some sala := by
  have hcf : ¬ c1 < 0 := not_lt.2 hc
  have h2 : salaByNome (insertSala db ⟨db.next_sala_id, nome, c1⟩) nome
      = some ⟨db.next_sala_id, nome, c1⟩ := by
    simp only [salaByNome] at h ⊢
    simp only [insertSala]
    rw [find?_append_none _ _ h]
    simp [List.find?_cons]
  refine ⟨⟨db.next_sala_id, nome, c1⟩, insertSala db ⟨db.next_sala_id, nome, c1⟩,
    ?_, ?_, rfl, h2⟩
  · simp [get_or_create_sala, h, hcf]
  · simp [get_or_create_sala, h2]

/-- C1 witness: the amended idempotence at a concrete empty state, room
"A101", first capacity 30, second capacity 99. -/
theorem get_or_create_sala_idempotente_witness :
    salaByNome dbE "A101" = none ∧ (0 : Int) ≤ 30 ∧
    ∃ (sala : Sala) (db1 : DB),
      get_or_create_sala dbE "A101" 30 = .ok ((sala, true), db1) ∧
      get_or_create_sala db1 "A101" 99 = .ok ((sala, false), db1) ∧
      sala.capacidade = 30 ∧ salaByNome db1 "A101" = some sala :=
  ⟨rfl, by decide, get_or_create_sala_idempotente dbE "A101" 30 99 rfl (by decide)⟩

/-- C1 counterexample: with a negative first capacity the first call does
not return created=true; the INSERT violates CheckConstraint
"capacidade >= 0" and the transaction fails, refuting the claim's "every
pair of capacities". -/
theorem get_or_create_sala_capacidade_negativa :
    get_or_create_sala dbE "A101" (-1) =
      .error (DBError.checkViolation "ck_sala_capacidade") := by
  rfl

/-- C2 (amended with the foreign keys the schema enforces): if a matching
(person, room, day) triple exists the call returns it with created=false
and writes nothing; if none exists and the person and room ids do exist,
the first call inserts and returns created=true and a second identical
call returns the very same record with created=false. -/
theorem registrar_idempotente_contract (db : DB) (idU idS dia : Nat) :
    (∀ reg, registroByTriple db idU idS dia = some reg →
        registrar_idempotente db idU idS dia = .ok ((reg, false), db)) ∧
    (registroByTriple db idU idS dia = none →
      (usuarioById db idU).isSome = true →
      (salaById db idS).isSome = true →
      ∃ (reg : Registro) (db1 : DB),
        registrar_idempotente db idU idS dia = .ok ((reg, true), db1) ∧
        registrar_idempotente db1 idU idS dia = .ok ((reg, false), db1) ∧
        reg.id_usuario = idU ∧ reg.id_sala = idS ∧ reg.data_registro = dia) := by
  constructor
  · intro reg hreg
    simp [registrar_idempotente, hreg]
  · intro hnone hu hs
    obtain ⟨u, hu2⟩ := Option.isSome_iff_exists.1 hu
    obtain ⟨sl, hs2⟩ := Option.isSome_iff_exists.1 hs
    have h2 : registroByTriple (insertRegistro db ⟨db.next_registro_id, idU, idS, dia⟩)
        idU idS dia = some ⟨db.next_registro_id, idU, idS, dia⟩ := by
      simp only [registroByTriple] at hnone ⊢
      simp only [insertRegistro]
      rw [find?_append_none _ _ hnone]
      simp [List.find?_cons]
    refine ⟨⟨db.next_registro_id, idU, idS, dia⟩,
      insertRegistro db ⟨db.next_registro_id, idU, idS, dia⟩, ?_, ?_, rfl, rfl, rfl⟩
    · simp [registrar_idempotente, hnone, hu2, hs2]
    · simp [registrar_idempotente, h2]

/-- C2 witness: the amended contract at a concrete state with one usuario
(id 1) and one sala (id 1) and no registro for day 5. -/
theorem registrar_idempotente_witness :
    registroByTriple dbW 1 1 5 = none ∧
    (usuarioById dbW 1).isSome = true ∧ (salaById dbW 1).isSome = true ∧
    ∃ (reg : Registro) (db1 : DB),
      registrar_idempotente dbW 1 1 5 = .ok ((reg, true), db1) ∧
      registrar_idempotente db1 1 1 5 = .ok ((reg, false), db1) ∧
      reg.id_usuario = 1 ∧ reg.id_sala = 1 ∧ reg.data_registro = 5 :=
  ⟨rfl, rfl, rfl, (registrar_idempotente_contract dbW 1 1 5).2 rfl rfl rfl⟩

/-- C2 counterexample: on the empty state the first call with dangling ids
does not return created=true; the INSERT fails with a foreign-key error,
refuting the claim's "every person id P, room id R". -/
theorem registrar_idempotente_fk_contraexemplo :
    registrar_idempotente dbE 1 1 1 =
      .error (DBError.fkViolation "registro.id_usuario") := by
  rfl

/-- C7: `criar_usuario_admin` on an email that already has a Person
returns that Person as-is with created=false and writes nothing at all;
only when no Person with that email exists does it create a new Person
tagged admin and return created=true. -/
theorem criar_usuario_admin_contract (db : DB) (nome email senha : String) :
    (∀ u, usuarioByEmail db email = some u →
        criar_usuario_admin db nome email senha = ((u, false), db)) ∧
    (usuarioByEmail db email = none →
      ∃ u : Usuario, criar_usuario_admin db nome email senha = ((u, true), insertUsuario db u) ∧
        u.tipo = "admin" ∧ u.nome = nome ∧ u.email = email) := by
  constructor
  · intro u hu
    simp [criar_usuario_admin, hu]
  · intro h
    exact ⟨⟨db.next_usuario_id, nome, email, hash_senha_bcrypt senha, "admin"⟩,
      by simp [criar_usuario_admin, h], rfl, rfl, rfl⟩

/-- C7 witness: both branches at concrete states — the existing usuario
(of role aluno) is returned untouched with the state unchanged, and on the
empty state an admin is created. -/
theorem criar_usuario_admin_witness :
    criar_usuario_admin dbU1 "Outro Nome" "ana@x.com" "pw2" = ((uAna, false), dbU1) ∧
    ∃ u : Usuario, criar_usuario_admin dbE "Root" "root@x.com" "pw" = ((u, true), insertUsuario dbE u) ∧
      u.tipo = "admin" ∧ u.nome = "Root" ∧ u.email = "root@x.com" :=
  ⟨(criar_usuario_admin_contract dbU1 "Outro Nome" "ana@x.com" "pw2").1 uAna rfl,
   (criar_usuario_admin_contract dbE "Root" "root@x.com" "pw").2 rfl⟩

/-- C5 (code bug): evaluating `deletar_usuario` at the spec's cascade
scenario — person 1 holds an aluno profile and two usage records.  The
claim requires the delete to cascade and remove all three rows; instead
`Usuario.registros` lacks a delete cascade and `passive_deletes`, so the
ORM nulls the NOT NULL `registro.id_usuario` at flush, the store raises
an integrity error and the transaction rolls back, deleting nothing.
The other two conjuncts show the surrounding behaviour the claim gets
right: an absent id yields false with the state unchanged, and deleting
a person with a profile but no usage records succeeds with the profile
row cascaded away. -/
theorem deletar_usuario_falha_com_registros :
    deletar_usuario dbDel 1 = .error (DBError.notNullViolation "registro.id_usuario") ∧
    deletar_usuario dbDel 99 = .ok (false, dbDel) ∧
    deletar_usuario dbUA 1 = .ok (true, (⟨[], [], [], [], [], 2, 1, 1⟩ : DB)) := by
  exact ⟨rfl, rfl, rfl⟩

/-- C4: `get_or_create_usuario_professor` on an email whose Person is
tagged aluno returns that Person (same id, nome, email, senha) with
created=false, flips the stored role tag to professor, ensures a
professor profile row exists, and leaves the aluno profile table — hence
the original StudentProfile row — untouched. -/
theorem get_or_create_professor_coercao (db : DB) (nome email senha : String)
    (u : Usuario) (h : usuarioByEmail db email = some u) (ht : u.tipo = "aluno") :
    ∃ (u2 : Usuario) (db2 : DB),
      get_or_create_usuario_professor db nome email senha = ((u2, false), db2) ∧
      u2.id_usuario = u.id_usuario ∧ u2.nome = u.nome ∧ u2.email = u.email ∧
      u2.senha = u.senha ∧ u2.tipo = "professor" ∧
      usuarioById db2 u.id_usuario = some u2 ∧
      (professorById db2 u.id_usuario).isSome = true ∧
      db2.alunos = db.alunos ∧ db2.salas = db.salas ∧ db2.registros = db.registros := by
  have hmem := List.mem_of_find?_eq_some h
  have hne : (u.tipo != "professor") = true := by
    rw [ht]
    rfl
  cases hp : professorById db u.id_usuario with
  | some pr =>
    refine ⟨⟨u.id_usuario, u.nome, u.email, u.senha, "professor"⟩,
      updateUsuario db ⟨u.id_usuario, u.nome, u.email, u.senha, "professor"⟩,
      ?_, rfl, rfl, rfl, rfl, rfl, ?_, ?_, rfl, rfl, rfl⟩
    · simp [get_or_create_usuario_professor, h, hne, hp]
    · exact usuarioById_updateUsuario_self db u _ hmem rfl
    · show (professorById db u.id_usuario).isSome = true
      rw [hp]
      rfl
  | none =>
    refine ⟨⟨u.id_usuario, u.nome, u.email, u.senha, "professor"⟩,
      insertProfessorRow
        (updateUsuario db ⟨u.id_usuario, u.nome, u.email, u.senha, "professor"⟩)
        u.id_usuario,
      ?_, rfl, rfl, rfl, rfl, rfl, ?_, ?_, rfl, rfl, rfl⟩
    · simp [get_or_create_usuario_professor, h, hne, hp]
    · exact usuarioById_updateUsuario_self db u _ hmem rfl
    · simp only [professorById, insertProfessorRow, updateUsuario]
      simp only [professorById] at hp
      rw [find?_append_none _ _ hp]
      simp [List.find?_cons]

/-- C4 witness: the role coercion at a concrete state holding one usuario
tagged aluno with an attached aluno profile row. -/
theorem get_or_create_professor_coercao_witness :
    usuarioByEmail dbUA "ana@x.com" = some uAna ∧ uAna.tipo = "aluno" ∧
    ∃ (u2 : Usuario) (db2 : DB),
      get_or_create_usuario_professor dbUA "Ana Nova" "ana@x.com" "npw" = ((u2, false), db2) ∧
      u2.id_usuario = uAna.id_usuario ∧ u2.nome = uAna.nome ∧ u2.email = uAna.email ∧
      u2.senha = uAna.senha ∧ u2.tipo = "professor" ∧
      usuarioById db2 uAna.id_usuario = some u2 ∧
      (professorById db2 uAna.id_usuario).isSome = true ∧
      db2.alunos = dbUA.alunos ∧ db2.salas = dbUA.salas ∧ db2.registros = dbUA.registros :=
  ⟨rfl, rfl, get_or_create_professor_coercao dbUA "Ana Nova" "ana@x.com" "npw" uAna rfl rfl⟩

/-- C6 (amended): absent id gives false without error; on an existing id,
when the email does not collide with another person and the role is one of
the three enumerated values, nome/email/tipo are overwritten, true is
returned, no profile rows change, and the password hash is replaced
exactly when a non-empty new password was supplied (None or the empty
string — falsy in Python — leave the hash unchanged). -/
theorem atualizar_usuario_basico_contract (db : DB) (i : Nat)
    (nome email tipo : String) (ns : Option String) :
    (usuarioById db i = none →
      atualizar_usuario_basico db i nome email tipo ns = .ok (false, db)) ∧
    (∀ u, usuarioById db i = some u →
      emailTakenByOther db email i = false →
      tipoValido tipo = true →
      ∃ db2, atualizar_usuario_basico db i nome email tipo ns = .ok (true, db2) ∧
        db2.alunos = db.alunos ∧ db2.professores = db.professores ∧
        db2.salas = db.salas ∧ db2.registros = db.registros ∧
        ∃ u2, usuarioById db2 i = some u2 ∧ u2.nome = nome ∧ u2.email = email ∧
          u2.tipo = tipo ∧
          ((ns = none ∨ ns = some "") → u2.senha = u.senha) ∧
          (∀ p, ns = some p → p ≠ "" → u2.senha = hash_senha_bcrypt p)) := by
  constructor
  · intro h
    simp [atualizar_usuario_basico, h]
  · intro u h hemail htipo
    have hmem := List.mem_of_find?_eq_some h
    have hid : u.id_usuario = i := by simpa using List.find?_some h
    refine ⟨updateUsuario db ⟨u.id_usuario, nome, email,
        (match ns with
         | some p => if p != "" then hash_senha_bcrypt p else u.senha
         | none => u.senha), tipo⟩, ?_, rfl, rfl, rfl, rfl, ?_⟩
    · simp [atualizar_usuario_basico, h, hemail, htipo]
    · refine ⟨⟨u.id_usuario, nome, email,
          (match ns with
           | some p => if p != "" then hash_senha_bcrypt p else u.senha
           | none => u.senha), tipo⟩, ?_, rfl, rfl, rfl, ?_, ?_⟩
      · rw [← hid]
        exact usuarioById_updateUsuario_self db u _ hmem rfl
      · rintro (rfl | rfl)
        · rfl
        · rfl
      · rintro p rfl hp
        have hbp : (p != "") = true := bne_iff_ne.2 hp
        simp [hbp]

/-- C6 witness: both branches at concrete states — absent id 99 gives
false with the state unchanged; id 1 with a fresh non-empty password gets
nome/email/tipo overwritten and the hash replaced. -/
theorem atualizar_usuario_basico_witness :
    atualizar_usuario_basico dbU1 99 "Bia" "bia@x.com" "professor" none = .ok (false, dbU1) ∧
    ∃ db2, atualizar_usuario_basico dbU1 1 "Bia" "bia@x.com" "professor" (some "nova") =
        .ok (true, db2) ∧
      db2.alunos = dbU1.alunos ∧ db2.professores = dbU1.professores ∧
      db2.salas = dbU1.salas ∧ db2.registros = dbU1.registros ∧
      ∃ u2, usuarioById db2 1 = some u2 ∧ u2.nome = "Bia" ∧ u2.email = "bia@x.com" ∧
        u2.tipo = "professor" ∧
        ((some "nova" = (none : Option String) ∨ some "nova" = some "") → u2.senha = uAna.senha) ∧
        (∀ p, some "nova" = some p → p ≠ "" → u2.senha = hash_senha_bcrypt p) :=
  ⟨(atualizar_usuario_basico_contract dbU1 99 "Bia" "bia@x.com" "professor" none).1 rfl,
   (atualizar_usuario_basico_contract dbU1 1 "Bia" "bia@x.com" "professor" (some "nova")).2
     uAna rfl rfl rfl⟩

/-- C6 counterexample: a supplied-but-empty password.  Python's
`if nova_senha:` is false for the empty string, so the call returns true
while the stored hash (indeed the whole state) is unchanged — refuting
"replaces the stored password hash if and only if a new password was
supplied". -/
theorem atualizar_usuario_senha_vazia :
    atualizar_usuario_basico dbU1 1 "Ana" "ana@x.com" "aluno" (some "") = .ok (true, dbU1) := by
  rfl

/-- C10: on an email that already has a Person, the aluno path either
fails (only possible when the Person still lacks an aluno profile and the
matricula collides) or returns that Person with created=false, its nome /
email / senha untouched regardless of the arguments, writing only the
role tag (and a missing aluno profile); when an aluno profile already
exists the matricula argument is ignored and the aluno table — hence the
stored registration number — is unchanged. -/
theorem get_or_create_aluno_existente_frame (db : DB)
    (nome email senha matricula : String) (u : Usuario)
    (h : usuarioByEmail db email = some u) :
    match get_or_create_usuario_aluno db nome email senha matricula with
    | .error _ => alunoById db u.id_usuario = none
    | .ok ((u2, created), db2) =>
        created = false ∧ u2.id_usuario = u.id_usuario ∧ u2.nome = u.nome ∧
        u2.email = u.email ∧ u2.senha = u.senha ∧ u2.tipo = "aluno" ∧
        usuarioById db2 u.id_usuario = some u2 ∧
        db2.professores = db.professores ∧ db2.salas = db.salas ∧
        db2.registros = db.registros ∧
        (∀ v ∈ db.usuarios, v.id_usuario ≠ u.id_usuario → v ∈ db2.usuarios) ∧
        (alunoById db u.id_usuario ≠ none → db2.alunos = db.alunos) := by
  have hmem := List.mem_of_find?_eq_some h
  cases htp : u.tipo != "aluno" with
  | false =>
    have htp2 : u.tipo = "aluno" := by simpa using htp
    cases hal : alunoById db u.id_usuario with
    | some a =>
      have hop : get_or_create_usuario_aluno db nome email senha matricula =
          .ok ((u, false), updateUsuario db u) := by
        simp [get_or_create_usuario_aluno, h, htp, hal]
      rw [hop]
      refine ⟨rfl, rfl, rfl, rfl, rfl, htp2, ?_, rfl, rfl, rfl, ?_, fun _ => rfl⟩
      · exact usuarioById_updateUsuario_self db u u hmem rfl
      · intro v hv hvne
        exact mem_updateUsuario_of_ne db u v hv hvne
    | none =>
      cases hm : matriculaTaken db matricula with
      | true =>
        have hop : get_or_create_usuario_aluno db nome email senha matricula =
            .error (DBError.uniqueViolation "aluno.matricula") := by
          simp [get_or_create_usuario_aluno, h, htp, hal, hm]
        rw [hop]
      | false =>
        have hop : get_or_create_usuario_aluno db nome email senha matricula =
            .ok ((u, false), insertAlunoRow (updateUsuario db u) u.id_usuario matricula) := by
          simp [get_or_create_usuario_aluno, h, htp, hal, hm]
        rw [hop]
        refine ⟨rfl, rfl, rfl, rfl, rfl, htp2, ?_, rfl, rfl, rfl, ?_, ?_⟩
        · exact usuarioById_updateUsuario_self db u u hmem rfl
        · intro v hv hvne
          exact mem_updateUsuario_of_ne db u v hv hvne
        · intro hx
          exact absurd rfl hx
  | true =>
    cases hal : alunoById db u.id_usuario with
    | some a =>
      have hop : get_or_create_usuario_aluno db nome email senha matricula =
          .ok ((⟨u.id_usuario, u.nome, u.email, u.senha, "aluno"⟩, false),
               updateUsuario db ⟨u.id_usuario, u.nome, u.email, u.senha, "aluno"⟩) := by
        simp [get_or_create_usuario_aluno, h, htp, hal]
      rw [hop]
      refine ⟨rfl, rfl, rfl, rfl, rfl, rfl, ?_, rfl, rfl, rfl, ?_, fun _ => rfl⟩
      · exact usuarioById_updateUsuario_self db u
          ⟨u.id_usuario, u.nome, u.email, u.senha, "aluno"⟩ hmem rfl
      · intro v hv hvne
        exact mem_updateUsuario_of_ne db _ v hv hvne
    | none =>
      cases hm : matriculaTaken db matricula with
      | true =>
        have hop : get_or_create_usuario_aluno db nome email senha matricula =
            .error (DBError.uniqueViolation "aluno.matricula") := by
          simp [get_or_create_usuario_aluno, h, htp, hal, hm]
        rw [hop]
      | false =>
        have hop : get_or_create_usuario_aluno db nome email senha matricula =
            .ok ((⟨u.id_usuario, u.nome, u.email, u.senha, "aluno"⟩, false),
                 insertAlunoRow
                   (updateUsuario db ⟨u.id_usuario, u.nome, u.email, u.senha, "aluno"⟩)
                   u.id_usuario matricula) := by
          simp [get_or_create_usuario_aluno, h, htp, hal, hm]
        rw [hop]
        refine ⟨rfl, rfl, rfl, rfl, rfl, rfl, ?_, rfl, rfl, rfl, ?_, ?_⟩
        · exact usuarioById_updateUsuario_self db u
            ⟨u.id_usuario, u.nome, u.email, u.senha, "aluno"⟩ hmem rfl
        · intro v hv hvne
          exact mem_updateUsuario_of_ne db _ v hv hvne
        · intro hx
          exact absurd rfl hx

/-- C10 witness: the frame property at a concrete state with one usuario
already holding an aluno profile, called with a different nome, password
and matricula. -/
theorem get_or_create_aluno_existente_frame_witness :
    usuarioByEmail dbUA "ana@x.com" = some uAna ∧
    match get_or_create_usuario_aluno dbUA "Outra" "ana@x.com" "npw" "M2" with
    | .error _ => alunoById dbUA uAna.id_usuario = none
    | .ok ((u2, created), db2) =>
        created = false ∧ u2.id_usuario = uAna.id_usuario ∧ u2.nome = uAna.nome ∧
        u2.email = uAna.email ∧ u2.senha = uAna.senha ∧ u2.tipo = "aluno" ∧
        usuarioById db2 uAna.id_usuario = some u2 ∧
        db2.professores = dbUA.professores ∧ db2.salas = dbUA.salas ∧
        db2.registros = dbUA.registros ∧
        (∀ v ∈ dbUA.usuarios, v.id_usuario ≠ uAna.id_usuario → v ∈ db2.usuarios) ∧
        (alunoById dbUA uAna.id_usuario ≠ none → db2.alunos = dbUA.alunos) :=
  ⟨rfl, get_or_create_aluno_existente_frame dbUA "Outra" "ana@x.com" "npw" "M2" uAna rfl⟩

/-- C9 (amended): `listar_usuarios` always has a possible result, and
every possible result consists of exactly the matching persons (same
multiplicities, all drawn from the usuario table) in non-decreasing order
of display name; the relative order of equal names is not constrained by
the query (`order_by(Usuario.nome)` has no identifier tie-break). -/
theorem listar_usuarios_ordenado (db : DB) (tipo : Option String) :
    (∃ out, listar_usuarios_pode db tipo out) ∧
    (∀ out, listar_usuarios_pode db tipo out →
      List.Sorted ordemNome out ∧
      (∀ u, out.count u = (selUsuarios db tipo).count u) ∧
      (∀ u, u ∈ out → u ∈ db.usuarios)) := by
  constructor
  · exact ⟨List.insertionSort ordemNome (selUsuarios db tipo),
      List.perm_insertionSort ordemNome _, List.sorted_insertionSort ordemNome _⟩
  · rintro out ⟨hperm, hsort⟩
    refine ⟨hsort, fun u => hperm.count_eq u, fun u hu => ?_⟩
    have hu2 := hperm.subset hu
    cases tipo with
    | none => exact hu2
    | some t => exact (List.mem_filter.1 hu2).1

/-- C9 witness: the amended statement at the concrete two-user state, on
the id-ascending result. -/
theorem listar_usuarios_ordenado_witness :
    listar_usuarios_pode db9 none [u9a, u9b] ∧
    (List.Sorted ordemNome [u9a, u9b] ∧
     (∀ u, List.count u [u9a, u9b] = (selUsuarios db9 none).count u) ∧
     (∀ u, u ∈ [u9a, u9b] → u ∈ db9.usuarios)) := by
  have hpode : listar_usuarios_pode db9 none [u9a, u9b] := by
    constructor
    · exact List.Perm.refl _
    · refine List.sorted_cons.2 ⟨?_, List.sorted_singleton _⟩
      intro b hb
      have hb2 : b = u9b := by simpa using hb
      subst hb2
      exact le_of_eq rfl
  exact ⟨hpode, (listar_usuarios_ordenado db9 none).2 [u9a, u9b] hpode⟩

/-- C9 counterexample: with two persons both named "Ana" (ids 1 and 2),
the id-descending sequence is a possible result of the query — it is a
permutation of the selected rows and non-decreasing on nome — yet it is
not ordered with ties broken by identifier ascending, refuting the
claim's tie-break. -/
theorem listar_usuarios_empate_contraexemplo :
    listar_usuarios_pode db9 none [u9b, u9a] ∧
    ¬ List.Sorted ordemNomeId [u9b, u9a] := by
  constructor
  · constructor
    · exact List.Perm.swap u9a u9b []
    · refine List.sorted_cons.2 ⟨?_, List.sorted_singleton _⟩
      intro b hb
      have hb2 : b = u9a := by simpa using hb
      subst hb2
      exact le_of_eq rfl
  · intro hs
    have h1 : ordemNomeId u9b u9a := List.rel_of_sorted_cons hs u9a (by simp)
    rcases h1 with hlt | ⟨hnm, hle⟩
    · exact lt_irrefl _ hlt
    · exact absurd hle (by decide)

end RegistroDeSala
